import Mathlib

/-!
Verification of the NexInvo GST compliance engine against its specification.

This file gives a shallow embedding of `invoices/gst_compliance.py` (the
`GSTComplianceEngine` class and the `validate_gst_number` utility) and of the
tax-split computation `_create_invoice_line` of `invoices/serializers.py`.

Python `Decimal` values are embedded as exact rationals (`ℚ`); all arithmetic
performed by the engine (addition, subtraction, multiplication, division by
100, absolute value, comparison) is exact on the magnitudes involved, so the
embedding is faithful.  Mutation of `self.errors` / `self.warnings` is
embedded as explicit state passing over a `VState` record; every
`list.append` becomes an append at the end of the corresponding list.
Dictionary fields are embedded as record fields holding the value the Python
code observes through `.get(key, default)`; a missing key and its default
are indistinguishable to the code, and Python truthiness of those values is
expressed by comparison with the default (`≠ ""`, `≠ 0`, `Option.isSome`).
-/

namespace NexInvo

/-- Embedding of the Python substring test `needle in hay` on lists of
characters (Lean 4.14 has no `List` infix test in scope, so it is defined
here by structural recursion). -/
def listContainsSub [DecidableEq α] (needle hay : List α) : Bool :=
  needle.isPrefixOf hay ||
    (match hay with
     | [] => false
     | _ :: t => listContainsSub needle t)

/-- Python `needle in hay` on strings. -/
def strContains (hay needle : String) : Bool :=
  listContainsSub needle.data hay.data

/-- Python `str.lower()`, character by character (the engine only lowercases
ASCII error texts). -/
def lowerStr (s : String) : String :=
  String.mk (s.data.map Char.toLower)

/-- Embedding of Python `re.match` for an anchored pattern `^core$`: the
whole string must match `core`, except that `$` also matches just before a
single trailing newline. -/
def reMatchDollar (core : List Char → Bool) (s : String) : Bool :=
  core s.data ||
    (match s.data.getLast? with
     | some c => c == '\n' && core s.data.dropLast
     | none => false)

/-- Character class `[1-9A-Z]` of the GSTIN pattern. -/
def isEntityChar (c : Char) : Bool :=
  c.isUpper || ('1' ≤ c && c ≤ '9')

/-- Core of the GSTIN pattern
`^[0-9]{2}[A-Z]{5}[0-9]{4}[A-Z]{1}[1-9A-Z]{1}[Z]{1}[0-9A-Z]{1}$`
(used both by `_validate_gstin_format` and by `validate_gst_number`). -/
def gstinCore (cs : List Char) : Bool :=
  match cs with
  | [s1, s2, p1, p2, p3, p4, p5, n1, n2, n3, n4, pl, en, zc, cd] =>
      s1.isDigit && s2.isDigit &&
      p1.isUpper && p2.isUpper && p3.isUpper && p4.isUpper && p5.isUpper &&
      n1.isDigit && n2.isDigit && n3.isDigit && n4.isDigit &&
      pl.isUpper && isEntityChar en && zc == 'Z' && (cd.isDigit || cd.isUpper)
  | _ => false

/-- Core of the invoice number pattern `^[A-Za-z0-9\-\/\\]+$`. -/
def invoiceNumberCore (cs : List Char) : Bool :=
  !cs.isEmpty && cs.all (fun c => c.isAlphanum || c == '-' || c == '/' || c == '\\')

/-- Core of the SAC pattern `^\d{6}$`. -/
def sacCore (cs : List Char) : Bool :=
  cs.length == 6 && cs.all Char.isDigit

/-- Core of the HSN pattern `^\d{4}(\d{2})?(\d{2})?$` (4, 6 or 8 digits). -/
def hsnCore (cs : List Char) : Bool :=
  (cs.length == 4 || cs.length == 6 || cs.length == 8) && cs.all Char.isDigit

/-- The `STATE_CODES` table of `GSTComplianceEngine`, in source order. -/
def STATE_CODES : List (String × String) :=
  [("01", "Jammu and Kashmir"), ("02", "Himachal Pradesh"), ("03", "Punjab"),
   ("04", "Chandigarh"), ("05", "Uttarakhand"), ("06", "Haryana"),
   ("07", "Delhi"), ("08", "Rajasthan"), ("09", "Uttar Pradesh"),
   ("10", "Bihar"), ("11", "Sikkim"), ("12", "Arunachal Pradesh"),
   ("13", "Nagaland"), ("14", "Manipur"), ("15", "Mizoram"),
   ("16", "Tripura"), ("17", "Meghalaya"), ("18", "Assam"),
   ("19", "West Bengal"), ("20", "Jharkhand"), ("21", "Odisha"),
   ("22", "Chhattisgarh"), ("23", "Madhya Pradesh"), ("24", "Gujarat"),
   ("25", "Daman and Diu"), ("26", "Dadra and Nagar Haveli"), ("27", "Maharashtra"),
   ("28", "Andhra Pradesh"), ("29", "Karnataka"), ("30", "Goa"),
   ("31", "Lakshadweep"), ("32", "Kerala"), ("33", "Tamil Nadu"),
   ("34", "Puducherry"), ("35", "Andaman and Nicobar Islands"), ("36", "Telangana"),
   ("37", "Andhra Pradesh"), ("38", "Ladakh")]

/-- Keys of `STATE_CODES` (Python `state_code in self.STATE_CODES` tests
dictionary keys). -/
def stateCodeKeys : List String :=
  STATE_CODES.map Prod.fst

/-- `VALID_GST_RATES` of `GSTComplianceEngine`. -/
def VALID_GST_RATES : List ℚ :=
  [0, 0.25, 3, 5, 12, 18, 28]

/-- `VALID_CESS_RATES` of `GSTComplianceEngine`. -/
def VALID_CESS_RATES : List ℚ :=
  [0, 1, 2, 3, 4, 5, 10, 15, 20, 25, 50, 100, 200, 290, 400]

/-- `AATO_THRESHOLD` of `GSTComplianceEngine`. -/
def AATO_THRESHOLD : ℚ := 5000000

/-- Billing address sub-dictionary of a client; an empty string stands for a
missing or empty value (both are falsy in Python). -/
structure Address where
  address_line1 : String
  city : String
  state : String
  pincode : String
deriving DecidableEq

/-- Client dictionary of the invoice payload. -/
structure Client where
  client_type : String
  gstin : String
  name : String
  state_code : String
  billing_address : Address
deriving DecidableEq

/-- The invoice `date` field.  `missing` stands for an absent or falsy value
(`None` or the empty string); `malformed` for a non-empty string that
`datetime.strptime(_, "%Y-%m-%d")` rejects (the parser is Python library
code, so its outcome is recorded in the constructor); `val d` for a parsed
or native date, as a day ordinal. -/
inductive DateField
  | missing
  | malformed
  | val (d : Int)
deriving DecidableEq

/-- Tenant dictionary of the invoice payload.  `gstin` is
`tenant["company_details"]["gstin"]` with `""` for missing;
`aato_threshold` is `none` when the key is absent (the two call sites use
different defaults for it). -/
structure Tenant where
  gstin : String
  aato_threshold : Option ℚ
  e_invoice_enabled : Bool
deriving DecidableEq

/-- One invoice line dictionary, holding the values the engine reads through
`line.get(key, default)`. -/
structure Line where
  description : String
  hsn_sac : String
  is_service : Bool
  quantity : ℚ
  rate : ℚ
  discount_percent : ℚ
  discount_amount : ℚ
  taxable_value : ℚ
  cgst_rate : ℚ
  sgst_rate : ℚ
  igst_rate : ℚ
  cess_rate : ℚ
  cgst_amount : ℚ
  sgst_amount : ℚ
  igst_amount : ℚ
  cess_amount : ℚ
  line_total : ℚ
deriving DecidableEq

/-- The invoice data dictionary passed to `validate_invoice_rule_46`. -/
structure InvoiceData where
  number : String
  dateF : DateField
  client : Option Client
  place_of_supply : String
  taxable_amount : ℚ
  total_tax : ℚ
  grand_total : ℚ
  lines : List Line
  tenant : Option Tenant
  einvoice_details : Bool
deriving DecidableEq

/-- Python `invoice_data.get("client", {}).get("state_code", "")`. -/
def clientState (d : InvoiceData) : String :=
  (d.client.map Client.state_code).getD ""

/-- Python `invoice_data.get("client", {}).get("client_type")`, compared
with `"b2b"`. -/
def clientType (d : InvoiceData) : String :=
  (d.client.map Client.client_type).getD ""

/-- Mutable validation state of the engine: `self.errors` and
`self.warnings`. -/
structure VState where
  errors : List String
  warnings : List String
deriving DecidableEq

/-- `self.errors.append e`. -/
def VState.addError (s : VState) (e : String) : VState :=
  { s with errors := s.errors ++ [e] }

/-- `self.warnings.append w`. -/
def VState.addWarning (s : VState) (w : String) : VState :=
  { s with warnings := s.warnings ++ [w] }

/-- The state at the start of a validation run. -/
def VState.empty : VState := ⟨[], []⟩

/-- Concatenation of two states, list by list. -/
def VState.append (s t : VState) : VState :=
  ⟨s.errors ++ t.errors, s.warnings ++ t.warnings⟩

/-- Truthiness of the `date` field. -/
def dateTruthy : DateField → Bool
  | .missing => false
  | _ => true

/-- Name and truthiness of each Rule-46 mandatory header field, in the order
`_validate_mandatory_fields` iterates over them. -/
def mandatoryFieldVals (d : InvoiceData) : List (String × Bool) :=
  [("number", d.number ≠ ""), ("date", dateTruthy d.dateF),
   ("client", d.client.isSome), ("place_of_supply", d.place_of_supply ≠ ""),
   ("taxable_amount", d.taxable_amount ≠ 0), ("total_tax", d.total_tax ≠ 0),
   ("grand_total", d.grand_total ≠ 0)]

/-- Loop body of the mandatory header field check. -/
def mandFieldStep (s : VState) (p : String × Bool) : VState :=
  if p.2 then s
  else s.addError ("Rule-46 violation: Missing mandatory field \x27" ++ p.1 ++ "\x27")

/-- Loop body of the per-line mandatory checks (`for i, line in
enumerate(lines, 1)`). -/
def mandLineStep (s : VState) (p : Nat × Line) : VState :=
  let s := if p.2.description = "" then
      s.addError ("Rule-46 violation: Line " ++ toString p.1 ++ " missing description")
    else s
  let s := if p.2.hsn_sac = "" then
      s.addError ("Rule-46 violation: Line " ++ toString p.1 ++ " missing HSN/SAC code")
    else s
  if p.2.taxable_value ≤ 0 then
    s.addError ("Rule-46 violation: Line " ++ toString p.1 ++ " taxable value must be positive")
  else s

/-- `GSTComplianceEngine._validate_mandatory_fields`. -/
def validate_mandatory_fields (d : InvoiceData) (s : VState) : VState :=
  let s := (mandatoryFieldVals d).foldl mandFieldStep s
  let s :=
    match d.client with
    | none => s
    | some c =>
      let s := if c.client_type = "b2b" ∧ c.gstin = "" then
          s.addError "Rule-46 violation: GSTIN required for B2B clients"
        else s
      if c.name = "" then s.addError "Rule-46 violation: Client name is mandatory" else s
  let s := if d.lines = [] then
      s.addError "Rule-46 violation: Invoice must have at least one line item"
    else s
  (List.enumFrom 1 d.lines).foldl mandLineStep s

/-- Inner helper `validate_gstin` of `_validate_gstin_format` (its boolean
result is discarded at both call sites; only the appended errors matter). -/
def gstinCheck (gstin entity : String) (s : VState) : VState :=
  if gstin = "" then s
  else if ¬ reMatchDollar gstinCore gstin then
    s.addError ("Invalid GSTIN format for " ++ entity ++ ": " ++ gstin)
  else if ¬ (gstin.take 2) ∈ stateCodeKeys then
    s.addError ("Invalid state code in GSTIN for " ++ entity ++ ": " ++ gstin.take 2)
  else s

/-- `GSTComplianceEngine._validate_gstin_format`. -/
def validate_gstin_format (d : InvoiceData) (s : VState) : VState :=
  let s :=
    match d.tenant with
    | none => s
    | some t => if t.gstin ≠ "" then gstinCheck t.gstin "Supplier" s else s
  match d.client with
  | none => s
  | some c => if c.gstin ≠ "" then gstinCheck c.gstin "Buyer" s else s

/-- `GSTComplianceEngine._validate_invoice_details`.  `today` stands for
`date.today()`, as a day ordinal; a `malformed` date string appends its
error and returns early. -/
def validate_invoice_details (today : Int) (d : InvoiceData) (s : VState) : VState :=
  let s :=
    if d.number ≠ "" then
      let s := if d.number.length > 16 then
          s.addError "Invoice number exceeds 16 character limit"
        else s
      if ¬ reMatchDollar invoiceNumberCore d.number then
        s.addError "Invoice number contains invalid characters"
      else s
    else s
  match d.dateF with
  | .missing => s
  | .malformed => s.addError "Invalid invoice date format"
  | .val dt =>
    let s := if dt > today then s.addError "Invoice date cannot be in future" else s
    if dt < today - 730 then s.addWarning "Invoice date is older than 2 years" else s

/-- Loop body of `_validate_tax_rates` for one enumerated line.  The Python
code compares `float(cess_rate)` against the integer cess catalog; on the
fixed-precision decimal inputs the engine receives, that conversion is
injective on the relevant range, so it is embedded as exact membership. -/
def taxRateLineStep (cs pos : String) (s : VState) (p : Nat × Line) : VState :=
  let total_gst := p.2.cgst_rate + p.2.sgst_rate + p.2.igst_rate
  let s := if ¬ total_gst ∈ VALID_GST_RATES then
      s.addError ("Line " ++ toString p.1 ++ ": Invalid GST rate " ++ toString total_gst ++ "%")
    else s
  let s := if ¬ p.2.cess_rate ∈ VALID_CESS_RATES then
      s.addError ("Line " ++ toString p.1 ++ ": Invalid CESS rate " ++ toString p.2.cess_rate ++ "%")
    else s
  if cs = pos then
    let s := if p.2.igst_rate > 0 then
        s.addError ("Line " ++ toString p.1 ++ ": IGST not applicable for intra-state supply")
      else s
    if p.2.cgst_rate ≠ p.2.sgst_rate then
      s.addError ("Line " ++ toString p.1 ++ ": CGST and SGST rates must be equal for intra-state supply")
    else s
  else
    let s := if p.2.cgst_rate > 0 ∨ p.2.sgst_rate > 0 then
        s.addError ("Line " ++ toString p.1 ++ ": CGST/SGST not applicable for inter-state supply")
      else s
    if p.2.igst_rate = 0 ∧ total_gst > 0 then
      s.addError ("Line " ++ toString p.1 ++ ": IGST required for inter-state supply")
    else s

/-- `GSTComplianceEngine._validate_tax_rates`. -/
def validate_tax_rates (d : InvoiceData) (s : VState) : VState :=
  (List.enumFrom 1 d.lines).foldl (taxRateLineStep (clientState d) d.place_of_supply) s

/-- `GSTComplianceEngine._validate_place_of_supply`. -/
def validate_place_of_supply (d : InvoiceData) (s : VState) : VState :=
  if d.place_of_supply = "" then s.addError "Place of supply is mandatory"
  else
    let s := if ¬ d.place_of_supply ∈ stateCodeKeys then
        s.addError ("Invalid place of supply code: " ++ d.place_of_supply)
      else s
    match d.client with
    | none => s
    | some c =>
      if c.client_type = "b2b" then
        let has_goods := d.lines.any (fun l => ¬ l.is_service)
        let has_services := d.lines.any (fun l => l.is_service)
        if has_goods ∧ has_services then
          s.addWarning "Mixed supply (goods + services) requires careful place of supply determination"
        else s
      else s

/-- Whether the tenant dictionary is present with
`tenant.get("aato_threshold", 0) > 50000000` (loop-invariant condition of
`_validate_hsn_sac_codes`). -/
def tenantHighAato (d : InvoiceData) : Bool :=
  match d.tenant with
  | none => false
  | some t => (t.aato_threshold.getD 0) > 50000000

/-- Loop body of `_validate_hsn_sac_codes` for one enumerated line. -/
def hsnLineStep (high : Bool) (s : VState) (p : Nat × Line) : VState :=
  if p.2.hsn_sac = "" then
    s.addError ("Line " ++ toString p.1 ++ ": HSN/SAC code is mandatory")
  else if p.2.is_service then
    if ¬ reMatchDollar sacCore p.2.hsn_sac then
      s.addError ("Line " ++ toString p.1 ++ ": Invalid SAC code format. Must be 6 digits")
    else s
  else
    let s := if ¬ reMatchDollar hsnCore p.2.hsn_sac then
        s.addError ("Line " ++ toString p.1 ++ ": Invalid HSN code format. Must be 4, 6, or 8 digits")
      else s
    if high ∧ p.2.hsn_sac.length < 6 then
      s.addError ("Line " ++ toString p.1 ++ ": 6-digit HSN mandatory for turnover > 5 crores")
    else s

/-- `GSTComplianceEngine._validate_hsn_sac_codes`. -/
def validate_hsn_sac_codes (d : InvoiceData) (s : VState) : VState :=
  (List.enumFrom 1 d.lines).foldl (hsnLineStep (tenantHighAato d)) s

/-- Expected discount of one line
(`line_amount * discount_percent / 100` when `discount_percent > 0`,
else the supplied `discount_amount`). -/
def expectedDiscount (l : Line) : ℚ :=
  if l.discount_percent > 0 then l.quantity * l.rate * l.discount_percent / 100
  else l.discount_amount

/-- Expected taxable value of one line. -/
def expectedTaxable (l : Line) : ℚ :=
  l.quantity * l.rate - expectedDiscount l

/-- Tax total of one line from the supplied per-line amounts. -/
def lineTaxTotal (l : Line) : ℚ :=
  l.cgst_amount + l.sgst_amount + l.igst_amount + l.cess_amount

/-- Loop body of `_validate_invoice_values` for one enumerated line; besides
the state it accumulates `calculated_subtotal` and `calculated_tax_total`. -/
def valueLineStep (acc : VState × ℚ × ℚ) (p : Nat × Line) : VState × ℚ × ℚ :=
  let s := acc.1
  let s := if |expectedTaxable p.2 - p.2.taxable_value| > 1/100 then
      s.addError ("Line " ++ toString p.1 ++ ": Taxable value calculation error. Expected: "
        ++ toString (expectedTaxable p.2) ++ ", Actual: " ++ toString p.2.taxable_value)
    else s
  let s := if |p.2.taxable_value + lineTaxTotal p.2 - p.2.line_total| > 1/100 then
      s.addError ("Line " ++ toString p.1 ++ ": Line total calculation error")
    else s
  (s, acc.2.1 + p.2.taxable_value, acc.2.2 + lineTaxTotal p.2)

/-- `GSTComplianceEngine._validate_invoice_values`. -/
def validate_invoice_values (d : InvoiceData) (s : VState) : VState :=
  let acc := (List.enumFrom 1 d.lines).foldl valueLineStep (s, 0, 0)
  let s := acc.1
  let s := if |acc.2.1 - d.taxable_amount| > 1/100 then
      s.addError "Invoice subtotal calculation error"
    else s
  if |acc.2.2 - d.total_tax| > 1/100 then
    s.addError "Invoice tax total calculation error"
  else s

/-- `GSTComplianceEngine._validate_b2b_requirements`. -/
def validate_b2b_requirements (d : InvoiceData) (s : VState) : VState :=
  let c := d.client.getD ⟨"", "", "", "", ⟨"", "", "", ""⟩⟩
  let s := if c.gstin = "" then s.addError "GSTIN is mandatory for B2B transactions" else s
  let s := if c.billing_address.address_line1 = "" then
      s.addError "B2B requirement: Client address_line1 is mandatory"
    else s
  let s := if c.billing_address.city = "" then
      s.addError "B2B requirement: Client city is mandatory"
    else s
  let s := if c.billing_address.state = "" then
      s.addError "B2B requirement: Client state is mandatory"
    else s
  let s := if c.billing_address.pincode = "" then
      s.addError "B2B requirement: Client pincode is mandatory"
    else s
  if c.state_code = "" then
    s.addError "B2B requirement: Client state code is mandatory"
  else s

/-- `GSTComplianceEngine._validate_aato_compliance` (its local
`aato_threshold` read is dead code and only `grand_total` and the tenant
e-invoice flag matter). -/
def validate_aato_compliance (d : InvoiceData) (s : VState) : VState :=
  let s := if d.grand_total > 50000 then
      s.addWarning "High-value transaction: Additional documentation may be required"
    else s
  let s := if d.grand_total > 200000 then
      s.addWarning "Transaction above Rs.2 Lakh: Enhanced compliance requirements apply"
    else s
  if d.grand_total ≥ 50000 ∧ ((d.tenant.map Tenant.e_invoice_enabled).getD false) = true
      ∧ d.einvoice_details = false then
    s.addWarning "E-invoice generation recommended for transactions >= Rs.50,000"
  else s

/-- `GSTComplianceEngine.validate_invoice_rule_46`: runs every check group
on a fresh state and returns `(len(errors) == 0, errors, warnings)`. -/
def validate_invoice_rule_46 (today : Int) (d : InvoiceData) :
    Bool × List String × List String :=
  let s := VState.empty
  let s := validate_mandatory_fields d s
  let s := validate_gstin_format d s
  let s := validate_invoice_details today d s
  let s := validate_tax_rates d s
  let s := validate_place_of_supply d s
  let s := validate_hsn_sac_codes d s
  let s := validate_invoice_values d s
  let s := if clientType d = "b2b" then validate_b2b_requirements d s else s
  let s := validate_aato_compliance d s
  (s.errors.isEmpty, s.errors, s.warnings)

/-- `GSTComplianceEngine._calculate_compliance_score`. -/
def calculate_compliance_score (errors warnings : List String) : Int :=
  max 0 (100 - 10 * (errors.length : Int) - 2 * (warnings.length : Int))

/-- `GSTComplianceEngine._generate_recommendations`. -/
def generate_recommendations (errors warnings : List String) : List String :=
  let recs : List String := []
  let recs := if errors.any (fun e => strContains e "GSTIN") then
      recs ++ ["Verify and update GSTIN details for all parties"]
    else recs
  let recs := if errors.any (fun e => strContains e "HSN" || strContains e "SAC") then
      recs ++ ["Review and correct HSN/SAC codes as per latest GST classification"]
    else recs
  let recs := if errors.any (fun e => strContains (lowerStr e) "rate") then
      recs ++ ["Verify GST rates against current rate notifications"]
    else recs
  let recs := if errors.any (fun e => strContains (lowerStr e) "calculation") then
      recs ++ ["Review calculation logic and ensure accuracy"]
    else recs
  if warnings ≠ [] then
    recs ++ ["Address warnings to improve compliance posture"]
  else recs

/-- Module-level utility `validate_gst_number` of `gst_compliance.py`. -/
def validate_gst_number (gstin : String) : Bool :=
  if gstin = "" ∨ gstin.length ≠ 15 then false
  else if ¬ reMatchDollar gstinCore gstin then false
  else if ¬ (gstin.take 2) ∈ stateCodeKeys then false
  else true

/-- The `item` foreign object a line may carry (only the two rate fields
`_create_invoice_line` reads). -/
structure ItemRef where
  current_gst_rate : ℚ
  current_cess_rate : ℚ
deriving DecidableEq

/-- Input `line_data` of `_create_invoice_line` (the fields it reads). -/
structure LineInput where
  taxable_value : ℚ
  cgst_rate : ℚ
  sgst_rate : ℚ
  igst_rate : ℚ
  cess_rate : ℚ
  item : Option ItemRef
deriving DecidableEq

/-- Values `_create_invoice_line` writes back into `line_data`. -/
structure ComputedLine where
  cgst_rate : ℚ
  sgst_rate : ℚ
  igst_rate : ℚ
  cess_rate : ℚ
  cgst_amount : ℚ
  sgst_amount : ℚ
  igst_amount : ℚ
  cess_amount : ℚ
  line_total : ℚ
deriving DecidableEq

/-- `InvoiceSerializer._create_invoice_line` of `invoices/serializers.py`:
the GST split computation.  `client_state` is `invoice.client.state_code`
and `supply_state` is `invoice.place_of_supply`. -/
def create_invoice_line (client_state supply_state : String) (ld : LineInput) : ComputedLine :=
  let rates :=
    if ld.cgst_rate = 0 ∧ ld.sgst_rate = 0 ∧ ld.igst_rate = 0 then
      match ld.item with
      | some item =>
        if client_state = supply_state then
          (item.current_gst_rate / 2, item.current_gst_rate / 2, (0 : ℚ), item.current_cess_rate)
        else
          ((0 : ℚ), (0 : ℚ), item.current_gst_rate, item.current_cess_rate)
      | none => (ld.cgst_rate, ld.sgst_rate, ld.igst_rate, ld.cess_rate)
    else (ld.cgst_rate, ld.sgst_rate, ld.igst_rate, ld.cess_rate)
  let amounts :=
    if client_state = supply_state then
      (ld.taxable_value * rates.1 / 100, ld.taxable_value * rates.2.1 / 100, (0 : ℚ))
    else
      ((0 : ℚ), (0 : ℚ), ld.taxable_value * rates.2.2.1 / 100)
  let cess_amount := ld.taxable_value * rates.2.2.2 / 100
  let line_total := ld.taxable_value + amounts.1 + amounts.2.1 + amounts.2.2 + cess_amount
  ⟨rates.1, rates.2.1, rates.2.2.1, rates.2.2.2,
   amounts.1, amounts.2.1, amounts.2.2, cess_amount, line_total⟩

/-! State-decomposition infrastructure: every check only ever appends, so a
run from an arbitrary state splits as the initial state followed by the run
from the empty state. -/

/-- A state transformer only appends: its action on any state is the state
followed by its output on the empty state. -/
def Appendy (F : VState → VState) : Prop :=
  ∀ s : VState, F s = s.append (F VState.empty)

@[simp]
theorem VState.append_errors (s t : VState) : (s.append t).errors = s.errors ++ t.errors := rfl

@[simp]
theorem VState.append_warnings (s t : VState) : (s.append t).warnings = s.warnings ++ t.warnings := rfl

@[simp]
theorem VState.empty_errors : (VState.empty).errors = [] := rfl

@[simp]
theorem VState.empty_warnings : (VState.empty).warnings = [] := rfl

@[simp]
theorem VState.append_empty (s : VState) : s.append VState.empty = s := by
  simp [VState.append, VState.empty]

@[simp]
theorem VState.empty_append (s : VState) : VState.empty.append s = s := by
  simp [VState.append, VState.empty]

theorem VState.append_assoc (a b c : VState) :
    (a.append b).append c = a.append (b.append c) := by
  simp [VState.append]

theorem appendy_addError (e : String) : Appendy (fun s => s.addError e) := by
  intro s
  simp [VState.addError, VState.append, VState.empty]

theorem appendy_addWarning (w : String) : Appendy (fun s => s.addWarning w) := by
  intro s
  simp [VState.addWarning, VState.append, VState.empty]

theorem appendy_id : Appendy (fun s => s) := by
  intro s
  simp

theorem appendy_comp {F G : VState → VState} (hF : Appendy F) (hG : Appendy G) :
    Appendy (fun s => G (F s)) := by
  intro s
  show G (F s) = s.append (G (F VState.empty))
  rw [hF s, hG (s.append (F VState.empty)), hG (F VState.empty),
    hF VState.empty, VState.empty_append, VState.append_assoc]

theorem appendy_ite (c : Prop) [Decidable c] {F G : VState → VState}
    (hF : Appendy F) (hG : Appendy G) :
    Appendy (fun s => if c then F s else G s) := by
  intro s
  by_cases h : c <;> simp [h, hF s, hG s]

theorem appendy_foldl {α : Type} {step : VState → α → VState}
    (h : ∀ x, Appendy (fun s => step s x)) (l : List α) :
    Appendy (fun s => l.foldl step s) := by
  induction l with
  | nil => exact appendy_id
  | cons x xs ih =>
    intro s
    show List.foldl step s (x :: xs) = s.append (List.foldl step VState.empty (x :: xs))
    have hstep : ∀ t : VState, List.foldl step t (x :: xs) = List.foldl step (step t x) xs :=
      fun t => rfl
    have ih' : ∀ t : VState, List.foldl step t xs = t.append (List.foldl step VState.empty xs) :=
      fun t => ih t
    have h' : ∀ t : VState, step t x = t.append (step VState.empty x) := fun t => h x t
    rw [hstep s, hstep VState.empty, ih' (step s x), ih' (step VState.empty x),
      h' s, h' VState.empty, VState.empty_append, VState.append_assoc]

/-- A fold whose step appends a per-element output is the flat concatenation
of those outputs. -/
theorem foldl_out {α : Type} {step : VState → α → VState} {out : α → VState}
    (h : ∀ s x, step s x = s.append (out x)) (l : List α) (s : VState) :
    l.foldl step s =
      ⟨s.errors ++ l.flatMap (fun x => (out x).errors),
       s.warnings ++ l.flatMap (fun x => (out x).warnings)⟩ := by
  induction l generalizing s with
  | nil => simp
  | cons x xs ih =>
    have : (x :: xs).foldl step s = xs.foldl step (step s x) := rfl
    rw [this, ih (step s x), h s x]
    simp

theorem appendy_of_out {F : VState → VState} {o : VState} (h : ∀ s, F s = s.append o) :
    Appendy F := by
  intro s
  rw [h s, h VState.empty, VState.empty_append]

theorem flatMap_const_nil {α β : Type} (l : List α) :
    l.flatMap (fun _ => ([] : List β)) = [] := by
  induction l with
  | nil => rfl
  | cons x xs ih => simp [ih]

/-- Errors one mandatory header field contributes. -/
theorem mandFieldStep_out (s : VState) (p : String × Bool) :
    mandFieldStep s p = s.append
      ⟨if p.2 then []
       else ["Rule-46 violation: Missing mandatory field \x27" ++ p.1 ++ "\x27"], []⟩ := by
  simp only [mandFieldStep]
  split_ifs <;> simp [VState.addError, VState.append]

/-- Errors the per-line mandatory checks contribute for one line. -/
theorem mandLineStep_out (s : VState) (p : Nat × Line) :
    mandLineStep s p = s.append
      ⟨(if p.2.description = "" then
          ["Rule-46 violation: Line " ++ toString p.1 ++ " missing description"] else []) ++
       (if p.2.hsn_sac = "" then
          ["Rule-46 violation: Line " ++ toString p.1 ++ " missing HSN/SAC code"] else []) ++
       (if p.2.taxable_value ≤ 0 then
          ["Rule-46 violation: Line " ++ toString p.1 ++ " taxable value must be positive"] else []),
       []⟩ := by
  simp only [mandLineStep]
  split_ifs <;> simp [VState.addError, VState.append]

/-- Full output of `_validate_mandatory_fields` from any starting state. -/
theorem validate_mandatory_fields_out (d : InvoiceData) (s : VState) :
    validate_mandatory_fields d s = s.append
      ⟨((mandatoryFieldVals d).flatMap (fun p =>
          if p.2 then []
          else ["Rule-46 violation: Missing mandatory field \x27" ++ p.1 ++ "\x27"])) ++
       (match d.client with
        | none => []
        | some c =>
          (if c.client_type = "b2b" ∧ c.gstin = "" then
            ["Rule-46 violation: GSTIN required for B2B clients"] else []) ++
          (if c.name = "" then ["Rule-46 violation: Client name is mandatory"] else [])) ++
       (if d.lines = [] then
          ["Rule-46 violation: Invoice must have at least one line item"] else []) ++
       ((List.enumFrom 1 d.lines).flatMap (fun p =>
          (if p.2.description = "" then
            ["Rule-46 violation: Line " ++ toString p.1 ++ " missing description"] else []) ++
          (if p.2.hsn_sac = "" then
            ["Rule-46 violation: Line " ++ toString p.1 ++ " missing HSN/SAC code"] else []) ++
          (if p.2.taxable_value ≤ 0 then
            ["Rule-46 violation: Line " ++ toString p.1 ++ " taxable value must be positive"] else []))),
       []⟩ := by
  simp only [validate_mandatory_fields]
  rw [foldl_out mandFieldStep_out, foldl_out mandLineStep_out]
  cases d.client with
  | none =>
    split_ifs <;> simp [VState.addError, VState.append, flatMap_const_nil]
  | some c =>
    dsimp only
    split_ifs <;> simp [VState.addError, VState.append, flatMap_const_nil]

/-- Output of `_validate_tax_rates` from any starting state. -/
theorem taxRateLineStep_out (cs pos : String) (s : VState) (p : Nat × Line) :
    taxRateLineStep cs pos s p = s.append
      ⟨(if ¬ (p.2.cgst_rate + p.2.sgst_rate + p.2.igst_rate) ∈ VALID_GST_RATES then
          ["Line " ++ toString p.1 ++ ": Invalid GST rate "
            ++ toString (p.2.cgst_rate + p.2.sgst_rate + p.2.igst_rate) ++ "%"] else []) ++
       (if ¬ p.2.cess_rate ∈ VALID_CESS_RATES then
          ["Line " ++ toString p.1 ++ ": Invalid CESS rate " ++ toString p.2.cess_rate ++ "%"]
        else []) ++
       (if cs = pos then
          (if p.2.igst_rate > 0 then
            ["Line " ++ toString p.1 ++ ": IGST not applicable for intra-state supply"] else []) ++
          (if p.2.cgst_rate ≠ p.2.sgst_rate then
            ["Line " ++ toString p.1 ++ ": CGST and SGST rates must be equal for intra-state supply"]
           else [])
        else
          (if p.2.cgst_rate > 0 ∨ p.2.sgst_rate > 0 then
            ["Line " ++ toString p.1 ++ ": CGST/SGST not applicable for inter-state supply"] else []) ++
          (if p.2.igst_rate = 0 ∧ p.2.cgst_rate + p.2.sgst_rate + p.2.igst_rate > 0 then
            ["Line " ++ toString p.1 ++ ": IGST required for inter-state supply"] else [])),
       []⟩ := by
  simp only [taxRateLineStep]
  split_ifs <;> simp [VState.addError, VState.append]

theorem validate_tax_rates_out (d : InvoiceData) (s : VState) :
    validate_tax_rates d s = s.append
      ⟨(List.enumFrom 1 d.lines).flatMap (fun p =>
        (if ¬ (p.2.cgst_rate + p.2.sgst_rate + p.2.igst_rate) ∈ VALID_GST_RATES then
          ["Line " ++ toString p.1 ++ ": Invalid GST rate "
            ++ toString (p.2.cgst_rate + p.2.sgst_rate + p.2.igst_rate) ++ "%"] else []) ++
        (if ¬ p.2.cess_rate ∈ VALID_CESS_RATES then
          ["Line " ++ toString p.1 ++ ": Invalid CESS rate " ++ toString p.2.cess_rate ++ "%"]
         else []) ++
        (if clientState d = d.place_of_supply then
          (if p.2.igst_rate > 0 then
            ["Line " ++ toString p.1 ++ ": IGST not applicable for intra-state supply"] else []) ++
          (if p.2.cgst_rate ≠ p.2.sgst_rate then
            ["Line " ++ toString p.1 ++ ": CGST and SGST rates must be equal for intra-state supply"]
           else [])
         else
          (if p.2.cgst_rate > 0 ∨ p.2.sgst_rate > 0 then
            ["Line " ++ toString p.1 ++ ": CGST/SGST not applicable for inter-state supply"] else []) ++
          (if p.2.igst_rate = 0 ∧ p.2.cgst_rate + p.2.sgst_rate + p.2.igst_rate > 0 then
            ["Line " ++ toString p.1 ++ ": IGST required for inter-state supply"] else []))),
       []⟩ := by
  simp only [validate_tax_rates]
  rw [foldl_out (taxRateLineStep_out (clientState d) d.place_of_supply)]
  simp [VState.append, flatMap_const_nil]

/-- Output of `_validate_hsn_sac_codes` from any starting state. -/
theorem hsnLineStep_out (high : Bool) (s : VState) (p : Nat × Line) :
    hsnLineStep high s p = s.append
      ⟨if p.2.hsn_sac = "" then
          ["Line " ++ toString p.1 ++ ": HSN/SAC code is mandatory"]
        else if p.2.is_service then
          (if ¬ reMatchDollar sacCore p.2.hsn_sac then
            ["Line " ++ toString p.1 ++ ": Invalid SAC code format. Must be 6 digits"] else [])
        else
          (if ¬ reMatchDollar hsnCore p.2.hsn_sac then
            ["Line " ++ toString p.1 ++ ": Invalid HSN code format. Must be 4, 6, or 8 digits"]
           else []) ++
          (if high ∧ p.2.hsn_sac.length < 6 then
            ["Line " ++ toString p.1 ++ ": 6-digit HSN mandatory for turnover > 5 crores"] else []),
       []⟩ := by
  simp only [hsnLineStep]
  split_ifs <;> simp [VState.addError, VState.append]

theorem validate_hsn_sac_codes_out (d : InvoiceData) (s : VState) :
    validate_hsn_sac_codes d s = s.append
      ⟨(List.enumFrom 1 d.lines).flatMap (fun p =>
        if p.2.hsn_sac = "" then
          ["Line " ++ toString p.1 ++ ": HSN/SAC code is mandatory"]
        else if p.2.is_service then
          (if ¬ reMatchDollar sacCore p.2.hsn_sac then
            ["Line " ++ toString p.1 ++ ": Invalid SAC code format. Must be 6 digits"] else [])
        else
          (if ¬ reMatchDollar hsnCore p.2.hsn_sac then
            ["Line " ++ toString p.1 ++ ": Invalid HSN code format. Must be 4, 6, or 8 digits"]
           else []) ++
          (if tenantHighAato d ∧ p.2.hsn_sac.length < 6 then
            ["Line " ++ toString p.1 ++ ": 6-digit HSN mandatory for turnover > 5 crores"] else [])),
       []⟩ := by
  simp only [validate_hsn_sac_codes]
  rw [foldl_out (hsnLineStep_out (tenantHighAato d))]
  simp [VState.append, flatMap_const_nil]

/-- Output of one `_validate_invoice_values` loop iteration: appended errors
plus the updated running subtotal and tax total. -/
theorem valueLineStep_out (acc : VState × ℚ × ℚ) (p : Nat × Line) :
    valueLineStep acc p =
      (acc.1.append
        ⟨(if |expectedTaxable p.2 - p.2.taxable_value| > 1/100 then
            ["Line " ++ toString p.1 ++ ": Taxable value calculation error. Expected: "
              ++ toString (expectedTaxable p.2) ++ ", Actual: " ++ toString p.2.taxable_value]
          else []) ++
         (if |p.2.taxable_value + lineTaxTotal p.2 - p.2.line_total| > 1/100 then
            ["Line " ++ toString p.1 ++ ": Line total calculation error"] else []),
         []⟩,
       acc.2.1 + p.2.taxable_value, acc.2.2 + lineTaxTotal p.2) := by
  simp only [valueLineStep]
  split_ifs <;> simp [VState.addError, VState.append]

/-- The `_validate_invoice_values` loop, fully characterised: errors appended
per line, and the two running sums. -/
theorem valueFold (l : List (Nat × Line)) (s : VState) (a b : ℚ) :
    l.foldl valueLineStep (s, a, b) =
      (s.append
        ⟨l.flatMap (fun p =>
           (if |expectedTaxable p.2 - p.2.taxable_value| > 1/100 then
             ["Line " ++ toString p.1 ++ ": Taxable value calculation error. Expected: "
               ++ toString (expectedTaxable p.2) ++ ", Actual: " ++ toString p.2.taxable_value]
            else []) ++
           (if |p.2.taxable_value + lineTaxTotal p.2 - p.2.line_total| > 1/100 then
             ["Line " ++ toString p.1 ++ ": Line total calculation error"] else [])),
         []⟩,
       a + (l.map (fun p => p.2.taxable_value)).sum,
       b + (l.map (fun p => lineTaxTotal p.2)).sum) := by
  induction l generalizing s a b with
  | nil => simp [VState.append]
  | cons x xs ih =>
    have hstep : (x :: xs).foldl valueLineStep (s, a, b) =
        xs.foldl valueLineStep (valueLineStep (s, a, b) x) := rfl
    rw [hstep, valueLineStep_out, ih]
    simp [VState.append, add_assoc]

/-- Output of `_validate_invoice_values` from any starting state. -/
theorem validate_invoice_values_out (d : InvoiceData) (s : VState) :
    validate_invoice_values d s = s.append
      ⟨((List.enumFrom 1 d.lines).flatMap (fun p =>
          (if |expectedTaxable p.2 - p.2.taxable_value| > 1/100 then
            ["Line " ++ toString p.1 ++ ": Taxable value calculation error. Expected: "
              ++ toString (expectedTaxable p.2) ++ ", Actual: " ++ toString p.2.taxable_value]
           else []) ++
          (if |p.2.taxable_value + lineTaxTotal p.2 - p.2.line_total| > 1/100 then
            ["Line " ++ toString p.1 ++ ": Line total calculation error"] else []))) ++
       (if |(d.lines.map (fun l => l.taxable_value)).sum - d.taxable_amount| > 1/100 then
          ["Invoice subtotal calculation error"] else []) ++
       (if |(d.lines.map (fun l => lineTaxTotal l)).sum - d.total_tax| > 1/100 then
          ["Invoice tax total calculation error"] else []),
       []⟩ := by
  have hsnd : ∀ (f : Line → ℚ),
      (List.enumFrom 1 d.lines).map (fun p => f p.2) = d.lines.map f := by
    intro f
    rw [show (fun p : Nat × Line => f p.2) = f ∘ Prod.snd from rfl, ← List.map_map,
      List.enumFrom_map_snd]
  simp only [validate_invoice_values]
  rw [valueFold, hsnd (fun l => l.taxable_value), hsnd (fun l => lineTaxTotal l)]
  dsimp only
  simp only [zero_add]
  split_ifs <;> simp [VState.addError, VState.append]

/-- `_validate_gstin_format` only appends. -/
theorem validate_gstin_format_appendy (d : InvoiceData) :
    Appendy (validate_gstin_format d) := by
  intro s
  simp only [validate_gstin_format, gstinCheck]
  cases d.tenant <;> cases d.client <;> dsimp only <;> (try split_ifs) <;>
    simp [VState.addError, VState.append, VState.empty]

/-- `_validate_invoice_details` only appends. -/
theorem validate_invoice_details_appendy (today : Int) (d : InvoiceData) :
    Appendy (validate_invoice_details today d) := by
  intro s
  simp only [validate_invoice_details]
  cases d.dateF <;> dsimp only <;> (try split_ifs) <;>
    simp [VState.addError, VState.addWarning, VState.append, VState.empty]

/-- `_validate_place_of_supply` only appends. -/
theorem validate_place_of_supply_appendy (d : InvoiceData) :
    Appendy (validate_place_of_supply d) := by
  intro s
  simp only [validate_place_of_supply]
  cases d.client <;> dsimp only <;> (try split_ifs) <;>
    simp [VState.addError, VState.addWarning, VState.append, VState.empty]

/-- `_validate_b2b_requirements` only appends. -/
theorem validate_b2b_requirements_appendy (d : InvoiceData) :
    Appendy (validate_b2b_requirements d) := by
  intro s
  simp only [validate_b2b_requirements]
  split_ifs <;> simp [VState.addError, VState.append, VState.empty]

/-- `_validate_aato_compliance` only appends. -/
theorem validate_aato_compliance_appendy (d : InvoiceData) :
    Appendy (validate_aato_compliance d) := by
  intro s
  simp only [validate_aato_compliance]
  split_ifs <;> simp [VState.addWarning, VState.append, VState.empty]

/-- State produced by running each check group independently from the empty
state and concatenating the outputs in engine order. -/
def groupsV (today : Int) (d : InvoiceData) : VState :=
  ((((((((validate_mandatory_fields d VState.empty).append
    (validate_gstin_format d VState.empty)).append
    (validate_invoice_details today d VState.empty)).append
    (validate_tax_rates d VState.empty)).append
    (validate_place_of_supply d VState.empty)).append
    (validate_hsn_sac_codes d VState.empty)).append
    (validate_invoice_values d VState.empty)).append
    (if clientType d = "b2b" then validate_b2b_requirements d VState.empty else VState.empty)).append
    (validate_aato_compliance d VState.empty)

/-- `validate_invoice_rule_46` equals the independent concatenation of its
check groups: no group is skipped and no failure short-circuits another
group. -/
theorem rule46_out (today : Int) (d : InvoiceData) :
    validate_invoice_rule_46 today d =
      ((groupsV today d).errors.isEmpty, (groupsV today d).errors, (groupsV today d).warnings) := by
  have h1 : ∀ s, validate_mandatory_fields d s
      = s.append (validate_mandatory_fields d VState.empty) :=
    appendy_of_out (fun s => validate_mandatory_fields_out d s)
  have h2 : ∀ s, validate_gstin_format d s
      = s.append (validate_gstin_format d VState.empty) :=
    validate_gstin_format_appendy d
  have h3 : ∀ s, validate_invoice_details today d s
      = s.append (validate_invoice_details today d VState.empty) :=
    validate_invoice_details_appendy today d
  have h4 : ∀ s, validate_tax_rates d s
      = s.append (validate_tax_rates d VState.empty) :=
    appendy_of_out (fun s => validate_tax_rates_out d s)
  have h5 : ∀ s, validate_place_of_supply d s
      = s.append (validate_place_of_supply d VState.empty) :=
    validate_place_of_supply_appendy d
  have h6 : ∀ s, validate_hsn_sac_codes d s
      = s.append (validate_hsn_sac_codes d VState.empty) :=
    appendy_of_out (fun s => validate_hsn_sac_codes_out d s)
  have h7 : ∀ s, validate_invoice_values d s
      = s.append (validate_invoice_values d VState.empty) :=
    appendy_of_out (fun s => validate_invoice_values_out d s)
  have h8 : ∀ s : VState, (if clientType d = "b2b" then validate_b2b_requirements d s else s)
      = s.append (if clientType d = "b2b" then validate_b2b_requirements d VState.empty
        else VState.empty) := by
    intro s
    split_ifs with h
    · exact validate_b2b_requirements_appendy d s
    · simp
  have h9 : ∀ s, validate_aato_compliance d s
      = s.append (validate_aato_compliance d VState.empty) :=
    validate_aato_compliance_appendy d
  simp only [validate_invoice_rule_46]
  rw [h2, h3, h4, h5, h6, h7, h8, h9]
  rfl

/-- A character list accepted by the GSTIN core pattern has exactly 15
entries. -/
theorem gstinCore_length (cs : List Char) (h : gstinCore cs = true) : cs.length = 15 := by
  unfold gstinCore at h
  split at h
  · simp_all
  · simp at h

/-- On a 15-character string the `$`-before-newline case of `re.match` is
vacuous, so the anchored GSTIN match is the core match of the whole
string. -/
theorem reMatch_gstin_of_len (g : String) (h : g.length = 15) :
    reMatchDollar gstinCore g = gstinCore g.data := by
  have hd : g.data.length = 15 := h
  unfold reMatchDollar
  cases hl : g.data.getLast? with
  | none => simp
  | some c =>
    have hdl : g.data.dropLast.length = 14 := by
      simp [List.length_dropLast, hd]
    have hfalse : gstinCore g.data.dropLast = false := by
      cases hg : gstinCore g.data.dropLast
      · rfl
      · have := gstinCore_length _ hg
        omega
    simp [hfalse]

/-- C6: `validate_gst_number` accepts a string iff it is exactly 15
characters long, matches the GSTIN pattern
`^[0-9]{2}[A-Z]{5}[0-9]{4}[A-Z]{1}[1-9A-Z]{1}Z[0-9A-Z]{1}$`, and its first
two characters are a key of the 38-entry state-code table; in particular it
rejects "123456789012345", "27ABCDE1234F1Z" and "99ABCDE1234F1Z5", and
accepts "27ABCDE1234F1Z5" and "07AABCU9603R1ZX". -/
theorem C6_gstin_validator (g : String) :
    (validate_gst_number g = true ↔
      (g.length = 15 ∧ gstinCore g.data = true ∧ g.take 2 ∈ stateCodeKeys)) ∧
    STATE_CODES.length = 38 ∧
    validate_gst_number "123456789012345" = false ∧
    validate_gst_number "27ABCDE1234F1Z" = false ∧
    validate_gst_number "99ABCDE1234F1Z5" = false ∧
    validate_gst_number "27ABCDE1234F1Z5" = true ∧
    validate_gst_number "07AABCU9603R1ZX" = true := by
  refine ⟨?_, by decide, by decide, by decide, by decide, by decide, by decide⟩
  constructor
  · intro h
    simp only [validate_gst_number] at h
    by_cases h1 : g = "" ∨ g.length ≠ 15
    · rw [if_pos h1] at h
      exact absurd h (by simp)
    · rw [if_neg h1] at h
      push_neg at h1
      by_cases h2 : ¬ reMatchDollar gstinCore g = true
      · rw [if_pos h2] at h
        exact absurd h (by simp)
      · rw [if_neg h2] at h
        push_neg at h2
        by_cases h3 : ¬ g.take 2 ∈ stateCodeKeys
        · rw [if_pos h3] at h
          exact absurd h (by simp)
        · push_neg at h3
          refine ⟨h1.2, ?_, h3⟩
          rw [← reMatch_gstin_of_len g h1.2]
          exact h2
  · rintro ⟨hl, hc, hm⟩
    have h1 : ¬ (g = "" ∨ g.length ≠ 15) := by
      push_neg
      refine ⟨?_, hl⟩
      intro h
      subst h
      simp at hl
    have h2 : ¬ ¬ reMatchDollar gstinCore g = true := by
      rw [reMatch_gstin_of_len g hl, hc]
      simp
    have h3 : ¬ ¬ g.take 2 ∈ stateCodeKeys := not_not_intro hm
    simp only [validate_gst_number]
    rw [if_neg h1, if_neg h2, if_neg h3]

/-- C8: the compliance score is `max(0, 100 − 10·len(errors) −
2·len(warnings))`, always lies in `[0, 100]`, and never increases when an
error or a warning is added. -/
theorem C8_compliance_score (errors warnings : List String) (e w : String) :
    calculate_compliance_score errors warnings
      = max 0 (100 - 10 * (errors.length : Int) - 2 * (warnings.length : Int)) ∧
    0 ≤ calculate_compliance_score errors warnings ∧
    calculate_compliance_score errors warnings ≤ 100 ∧
    calculate_compliance_score (e :: errors) warnings
      ≤ calculate_compliance_score errors warnings ∧
    calculate_compliance_score errors (w :: warnings)
      ≤ calculate_compliance_score errors warnings := by
  refine ⟨rfl, le_max_left _ _, max_le (by norm_num) (by omega), ?_, ?_⟩ <;>
    · simp only [calculate_compliance_score, List.length_cons]
      apply max_le_max le_rfl
      push_cast
      omega

/-- Intra-state amounts of `_create_invoice_line`. -/
theorem create_line_intra (cs ss : String) (ld : LineInput) (h : cs = ss) :
    (create_invoice_line cs ss ld).cgst_amount
      = ld.taxable_value * (create_invoice_line cs ss ld).cgst_rate / 100 ∧
    (create_invoice_line cs ss ld).sgst_amount
      = ld.taxable_value * (create_invoice_line cs ss ld).sgst_rate / 100 ∧
    (create_invoice_line cs ss ld).igst_amount = 0 := by
  subst h
  simp [create_invoice_line]

/-- Inter-state amounts of `_create_invoice_line`. -/
theorem create_line_inter (cs ss : String) (ld : LineInput) (hne : cs ≠ ss) :
    (create_invoice_line cs ss ld).cgst_amount = 0 ∧
    (create_invoice_line cs ss ld).sgst_amount = 0 ∧
    (create_invoice_line cs ss ld).igst_amount
      = ld.taxable_value * (create_invoice_line cs ss ld).igst_rate / 100 := by
  simp [create_invoice_line, hne]

/-- Cess amount and line total of `_create_invoice_line`. -/
theorem create_line_cess_total (cs ss : String) (ld : LineInput) :
    (create_invoice_line cs ss ld).cess_amount
      = ld.taxable_value * (create_invoice_line cs ss ld).cess_rate / 100 ∧
    (create_invoice_line cs ss ld).line_total
      = ld.taxable_value + (create_invoice_line cs ss ld).cgst_amount
        + (create_invoice_line cs ss ld).sgst_amount
        + (create_invoice_line cs ss ld).igst_amount
        + (create_invoice_line cs ss ld).cess_amount := by
  by_cases h : cs = ss <;> simp [create_invoice_line, h]

/-- C1: for every line processed by `_create_invoice_line`, jurisdiction
follows from comparing the buyer state code with the place of supply: equal
states give `cgst = tv·cgst_rate/100`, `sgst = tv·sgst_rate/100`, `igst =
0`; different states give `cgst = sgst = 0`, `igst = tv·igst_rate/100`; in
both cases `cess = tv·cess_rate/100` and `line_total` is the taxable value
plus all four tax amounts. -/
theorem C1_tax_split (cs ss : String) (ld : LineInput) :
    (cs = ss →
      (create_invoice_line cs ss ld).cgst_amount
        = ld.taxable_value * (create_invoice_line cs ss ld).cgst_rate / 100 ∧
      (create_invoice_line cs ss ld).sgst_amount
        = ld.taxable_value * (create_invoice_line cs ss ld).sgst_rate / 100 ∧
      (create_invoice_line cs ss ld).igst_amount = 0) ∧
    (cs ≠ ss →
      (create_invoice_line cs ss ld).cgst_amount = 0 ∧
      (create_invoice_line cs ss ld).sgst_amount = 0 ∧
      (create_invoice_line cs ss ld).igst_amount
        = ld.taxable_value * (create_invoice_line cs ss ld).igst_rate / 100) ∧
    (create_invoice_line cs ss ld).cess_amount
      = ld.taxable_value * (create_invoice_line cs ss ld).cess_rate / 100 ∧
    (create_invoice_line cs ss ld).line_total
      = ld.taxable_value + (create_invoice_line cs ss ld).cgst_amount
        + (create_invoice_line cs ss ld).sgst_amount
        + (create_invoice_line cs ss ld).igst_amount
        + (create_invoice_line cs ss ld).cess_amount :=
  ⟨fun h => create_line_intra cs ss ld h,
   fun hne => create_line_inter cs ss ld hne,
   (create_line_cess_total cs ss ld).1,
   (create_line_cess_total cs ss ld).2⟩

/-- C5 counterexample: an inter-state line with explicitly supplied
CGST/SGST rates has a positive combined rate, yet its computed IGST amount
is zero, refuting the claim that the IGST amount is strictly positive
whenever the combined rate is. -/
theorem C5_counterexample :
    ("27" : String) ≠ "29" ∧
    (create_invoice_line "27" "29" ⟨100, 9, 9, 0, 0, none⟩).cgst_rate
      + (create_invoice_line "27" "29" ⟨100, 9, 9, 0, 0, none⟩).sgst_rate
      + (create_invoice_line "27" "29" ⟨100, 9, 9, 0, 0, none⟩).igst_rate > 0 ∧
    ¬ (create_invoice_line "27" "29" ⟨100, 9, 9, 0, 0, none⟩).igst_amount > 0 := by
  have hne : ("27" : String) = "29" ↔ False := iff_false_intro (by decide)
  refine ⟨by decide, ?_, ?_⟩ <;> norm_num [create_invoice_line, hne]

/-- C5 (amended): for every inter-state line the computed CGST and SGST
amounts are zero, and the computed IGST amount is strictly positive whenever
the line's effective IGST rate and its taxable value are both strictly
positive. -/
theorem C5_inter_state (cs ss : String) (ld : LineInput) (hne : cs ≠ ss) :
    (create_invoice_line cs ss ld).cgst_amount = 0 ∧
    (create_invoice_line cs ss ld).sgst_amount = 0 ∧
    ((create_invoice_line cs ss ld).igst_rate > 0 → ld.taxable_value > 0 →
      (create_invoice_line cs ss ld).igst_amount > 0) := by
  obtain ⟨hc, hs, hi⟩ := create_line_inter cs ss ld hne
  refine ⟨hc, hs, fun hr htv => ?_⟩
  rw [hi]
  exact div_pos (mul_pos htv hr) (by norm_num)

theorem C5_inter_state_witness :
    (create_invoice_line "27" "29" ⟨100, 0, 0, 18, 0, none⟩).cgst_amount = 0 ∧
    (create_invoice_line "27" "29" ⟨100, 0, 0, 18, 0, none⟩).sgst_amount = 0 ∧
    ((create_invoice_line "27" "29" ⟨100, 0, 0, 18, 0, none⟩).igst_rate > 0 →
      (⟨100, 0, 0, 18, 0, none⟩ : LineInput).taxable_value > 0 →
      (create_invoice_line "27" "29" ⟨100, 0, 0, 18, 0, none⟩).igst_amount > 0) :=
  C5_inter_state "27" "29" ⟨100, 0, 0, 18, 0, none⟩ (by decide)

/-- C9 counterexample: an error naming the GSTIN only in lower case matches
the keyword case-insensitively, yet `_generate_recommendations` returns no
recommendation for it: the GSTIN keyword matching is case-sensitive. -/
theorem C9_counterexample :
    strContains (lowerStr "gstin missing for buyer") (lowerStr "GSTIN") = true ∧
    generate_recommendations ["gstin missing for buyer"] [] = [] := by
  constructor
  · decide
  · decide

/-- C9 (amended): the recommendations are exactly the canned strings picked
by substring matching over error texts — case-sensitive for `GSTIN` and for
`HSN`/`SAC`, case-insensitive (via lowercasing the error) for `rate` and
`calculation` — each at most once and in fixed order, with one generic
recommendation added when any warning exists. -/
theorem C9_recommendations (errors warnings : List String) :
    generate_recommendations errors warnings =
      (if errors.any (fun e => strContains e "GSTIN") then
        ["Verify and update GSTIN details for all parties"] else []) ++
      (if errors.any (fun e => strContains e "HSN" || strContains e "SAC") then
        ["Review and correct HSN/SAC codes as per latest GST classification"] else []) ++
      (if errors.any (fun e => strContains (lowerStr e) "rate") then
        ["Verify GST rates against current rate notifications"] else []) ++
      (if errors.any (fun e => strContains (lowerStr e) "calculation") then
        ["Review calculation logic and ensure accuracy"] else []) ++
      (if warnings ≠ [] then ["Address warnings to improve compliance posture"] else []) := by
  simp only [generate_recommendations]
  split_ifs <;> simp

/-- C4: per line, `_validate_tax_rates` appends one error exactly when the
combined rate is outside the GST rate catalog, one exactly when the cess
rate is outside the cess catalog, and enforces jurisdiction consistency —
intra-state: an error when `igst_rate > 0` and another when `cgst_rate ≠
sgst_rate`; inter-state: an error when `cgst_rate > 0 ∨ sgst_rate > 0` and
another when `igst_rate = 0` with positive combined rate — one error string
per violated rule per line, each naming the 1-based line index; it never
appends warnings. -/
theorem C4_tax_rate_rules (d : InvoiceData) :
    (validate_tax_rates d VState.empty).errors
      = (List.enumFrom 1 d.lines).flatMap (fun p =>
          (if ¬ (p.2.cgst_rate + p.2.sgst_rate + p.2.igst_rate) ∈ VALID_GST_RATES then
            ["Line " ++ toString p.1 ++ ": Invalid GST rate "
              ++ toString (p.2.cgst_rate + p.2.sgst_rate + p.2.igst_rate) ++ "%"] else []) ++
          (if ¬ p.2.cess_rate ∈ VALID_CESS_RATES then
            ["Line " ++ toString p.1 ++ ": Invalid CESS rate " ++ toString p.2.cess_rate ++ "%"]
           else []) ++
          (if clientState d = d.place_of_supply then
            (if p.2.igst_rate > 0 then
              ["Line " ++ toString p.1 ++ ": IGST not applicable for intra-state supply"] else []) ++
            (if p.2.cgst_rate ≠ p.2.sgst_rate then
              ["Line " ++ toString p.1 ++ ": CGST and SGST rates must be equal for intra-state supply"]
             else [])
           else
            (if p.2.cgst_rate > 0 ∨ p.2.sgst_rate > 0 then
              ["Line " ++ toString p.1 ++ ": CGST/SGST not applicable for inter-state supply"] else []) ++
            (if p.2.igst_rate = 0 ∧ p.2.cgst_rate + p.2.sgst_rate + p.2.igst_rate > 0 then
              ["Line " ++ toString p.1 ++ ": IGST required for inter-state supply"] else []))) ∧
    (validate_tax_rates d VState.empty).warnings = [] := by
  rw [validate_tax_rates_out d VState.empty]
  simp

/-- C7: `_validate_hsn_sac_codes` flags each enumerated line with the
1-based index; a line with a non-empty code passes — contributes no error —
iff for services its code matches `^\d{6}$` and for goods its code matches
`^\d{4}(\d{2})?(\d{2})?$` and, when the seller's `aato_threshold` exceeds
50,000,000, is at least 6 characters long. -/
theorem C7_hsn_sac_rules (d : InvoiceData) (p : Nat × Line) (hne : p.2.hsn_sac ≠ "") :
    ((validate_hsn_sac_codes d VState.empty).errors
      = (List.enumFrom 1 d.lines).flatMap (fun q =>
          if q.2.hsn_sac = "" then
            ["Line " ++ toString q.1 ++ ": HSN/SAC code is mandatory"]
          else if q.2.is_service then
            (if ¬ reMatchDollar sacCore q.2.hsn_sac then
              ["Line " ++ toString q.1 ++ ": Invalid SAC code format. Must be 6 digits"] else [])
          else
            (if ¬ reMatchDollar hsnCore q.2.hsn_sac then
              ["Line " ++ toString q.1 ++ ": Invalid HSN code format. Must be 4, 6, or 8 digits"]
             else []) ++
            (if tenantHighAato d ∧ q.2.hsn_sac.length < 6 then
              ["Line " ++ toString q.1 ++ ": 6-digit HSN mandatory for turnover > 5 crores"] else []))) ∧
    (p.2.is_service = true →
      ((hsnLineStep (tenantHighAato d) VState.empty p).errors = [] ↔
        reMatchDollar sacCore p.2.hsn_sac = true)) ∧
    (p.2.is_service = false →
      ((hsnLineStep (tenantHighAato d) VState.empty p).errors = [] ↔
        (reMatchDollar hsnCore p.2.hsn_sac = true ∧
          ¬ (tenantHighAato d = true ∧ p.2.hsn_sac.length < 6)))) := by
  refine ⟨?_, ?_, ?_⟩
  · rw [validate_hsn_sac_codes_out d VState.empty]
    simp
  · intro hs
    rw [hsnLineStep_out]
    simp only [VState.empty_append, if_neg hne, hs, if_true]
    split_ifs with h <;> simp_all
  · intro hs
    rw [hsnLineStep_out]
    simp only [VState.empty_append, if_neg hne, hs]
    split_ifs with h1 h2 <;> simp_all

theorem C7_hsn_sac_rules_witness :
    ((1, (⟨"goods", "1234", false, 1, 1, 0, 0, 1, 0, 0, 0, 0, 0, 0, 0, 0, 1⟩ : Line)).2.hsn_sac ≠ "") ∧
    ((hsnLineStep false VState.empty
        (1, (⟨"goods", "1234", false, 1, 1, 0, 0, 1, 0, 0, 0, 0, 0, 0, 0, 0, 1⟩ : Line))).errors = [] ↔
      (reMatchDollar hsnCore "1234" = true ∧
        ¬ ((false : Bool) = true ∧ ("1234" : String).length < 6))) :=
  ⟨by decide,
    (C7_hsn_sac_rules ⟨"INV1", .missing, none, "27", 0, 0, 0, [], none, false⟩
      (1, (⟨"goods", "1234", false, 1, 1, 0, 0, 1, 0, 0, 0, 0, 0, 0, 0, 0, 1⟩ : Line))
      (by decide)).2.2 rfl⟩

/-- C2: the value reconciliation recomputes each line's expected taxable
value as `quantity × rate − discount` — the discount being `quantity × rate
× discount_percent / 100` when `discount_percent > 0` and the supplied
`discount_amount` otherwise — and errs exactly when it deviates from the
supplied `taxable_value` by more than 0.01; it errs on the line total
exactly when `taxable_value` plus the four supplied per-line tax amounts
deviates from the supplied `line_total` by more than 0.01; and at invoice
level exactly when `taxable_amount` (respectively `total_tax`) deviates by
more than 0.01 from the sum of supplied taxable values (respectively of the
four per-line tax amounts); all arithmetic is exact rational arithmetic. -/
theorem C2_value_reconciliation (d : InvoiceData) :
    (validate_invoice_values d VState.empty).errors
      = ((List.enumFrom 1 d.lines).flatMap (fun p =>
          (if |p.2.quantity * p.2.rate -
                (if p.2.discount_percent > 0 then
                  p.2.quantity * p.2.rate * p.2.discount_percent / 100
                 else p.2.discount_amount) - p.2.taxable_value| > 1/100 then
            ["Line " ++ toString p.1 ++ ": Taxable value calculation error. Expected: "
              ++ toString (p.2.quantity * p.2.rate -
                (if p.2.discount_percent > 0 then
                  p.2.quantity * p.2.rate * p.2.discount_percent / 100
                 else p.2.discount_amount))
              ++ ", Actual: " ++ toString p.2.taxable_value]
           else []) ++
          (if |p.2.taxable_value
                + (p.2.cgst_amount + p.2.sgst_amount + p.2.igst_amount + p.2.cess_amount)
                - p.2.line_total| > 1/100 then
            ["Line " ++ toString p.1 ++ ": Line total calculation error"] else []))) ++
        (if |(d.lines.map (fun l => l.taxable_value)).sum - d.taxable_amount| > 1/100 then
          ["Invoice subtotal calculation error"] else []) ++
        (if |(d.lines.map (fun l =>
              l.cgst_amount + l.sgst_amount + l.igst_amount + l.cess_amount)).sum
            - d.total_tax| > 1/100 then
          ["Invoice tax total calculation error"] else []) ∧
    (validate_invoice_values d VState.empty).warnings = [] := by
  rw [validate_invoice_values_out d VState.empty]
  simp [expectedTaxable, expectedDiscount, lineTaxTotal]

/-- C3: `validate_invoice_rule_46` runs every check group — none is skipped
when an earlier one fails, each group's errors and warnings appearing in the
output exactly as produced from a fresh state — it returns `is_valid` true
iff the accumulated error list is empty, and the warning list never affects
`is_valid`; every violation is a string in one of the two lists of the total
function, never an exception. -/
theorem C3_no_short_circuit (today : Int) (d : InvoiceData) :
    ((validate_invoice_rule_46 today d).1 = true ↔
      (validate_invoice_rule_46 today d).2.1 = []) ∧
    (validate_invoice_rule_46 today d).2.1
      = (validate_mandatory_fields d VState.empty).errors
        ++ (validate_gstin_format d VState.empty).errors
        ++ (validate_invoice_details today d VState.empty).errors
        ++ (validate_tax_rates d VState.empty).errors
        ++ (validate_place_of_supply d VState.empty).errors
        ++ (validate_hsn_sac_codes d VState.empty).errors
        ++ (validate_invoice_values d VState.empty).errors
        ++ (if clientType d = "b2b" then validate_b2b_requirements d VState.empty
            else VState.empty).errors
        ++ (validate_aato_compliance d VState.empty).errors ∧
    (validate_invoice_rule_46 today d).2.2
      = (validate_mandatory_fields d VState.empty).warnings
        ++ (validate_gstin_format d VState.empty).warnings
        ++ (validate_invoice_details today d VState.empty).warnings
        ++ (validate_tax_rates d VState.empty).warnings
        ++ (validate_place_of_supply d VState.empty).warnings
        ++ (validate_hsn_sac_codes d VState.empty).warnings
        ++ (validate_invoice_values d VState.empty).warnings
        ++ (if clientType d = "b2b" then validate_b2b_requirements d VState.empty
            else VState.empty).warnings
        ++ (validate_aato_compliance d VState.empty).warnings := by
  rw [rule46_out]
  refine ⟨?_, ?_, ?_⟩
  · simp [List.isEmpty_iff]
  · simp [groupsV]
  · simp [groupsV]

/-- C10: presence of the seven mandatory header fields is tested by Python
truthiness, so a field supplied with a falsy value (zero amount, empty
string) draws the missing-field error for its name and makes the invoice
invalid; in particular an invoice whose `taxable_amount` or `total_tax` is
legitimately zero can never be valid. -/
theorem C10_truthiness_mandatory (today : Int) (d : InvoiceData) (name : String) (b : Bool)
    (hmem : (name, b) ∈ mandatoryFieldVals d) (hb : b = false) :
    ("Rule-46 violation: Missing mandatory field \x27" ++ name ++ "\x27")
      ∈ (validate_invoice_rule_46 today d).2.1 ∧
    (validate_invoice_rule_46 today d).1 = false := by
  subst hb
  have hmand : ("Rule-46 violation: Missing mandatory field \x27" ++ name ++ "\x27")
      ∈ (validate_mandatory_fields d VState.empty).errors := by
    rw [validate_mandatory_fields_out d VState.empty]
    simp only [VState.empty_append]
    refine List.mem_append_left _ (List.mem_append_left _ (List.mem_append_left _ ?_))
    exact List.mem_flatMap.mpr ⟨(name, false), hmem, by simp⟩
  have herr : ("Rule-46 violation: Missing mandatory field \x27" ++ name ++ "\x27")
      ∈ (groupsV today d).errors := by
    simp only [groupsV, VState.append_errors]
    exact List.mem_append_left _ (List.mem_append_left _ (List.mem_append_left _
      (List.mem_append_left _ (List.mem_append_left _ (List.mem_append_left _
      (List.mem_append_left _ (List.mem_append_left _ hmand)))))))
  rw [rule46_out]
  refine ⟨herr, ?_⟩
  cases hg : (groupsV today d).errors with
  | nil =>
    rw [hg] at herr
    exact absurd herr (List.not_mem_nil _)
  | cons a l =>
    simp [hg]

theorem C10_truthiness_mandatory_witness :
    (("total_tax", false) ∈ mandatoryFieldVals
      ⟨"INV1", .missing, none, "27", 100, 0, 100, [], none, false⟩) ∧
    (("Rule-46 violation: Missing mandatory field \x27" ++ "total_tax" ++ "\x27")
      ∈ (validate_invoice_rule_46 0
          ⟨"INV1", .missing, none, "27", 100, 0, 100, [], none, false⟩).2.1 ∧
     (validate_invoice_rule_46 0
        ⟨"INV1", .missing, none, "27", 100, 0, 100, [], none, false⟩).1 = false) :=
  ⟨by decide,
    C10_truthiness_mandatory 0 ⟨"INV1", .missing, none, "27", 100, 0, 100, [], none, false⟩
      "total_tax" false (by decide) rfl⟩

end NexInvo
